import Mathlib

/-!
Shallow embedding of the blog-api teaching repository.

Two variants exist in the repository:
* the "clean" modular variant under
  `stacks/python-fastapi/examples/blog-api/` (service layer over raw
  parameterized SQL against PostgreSQL), and
* the deliberately vulnerable monolith `app/main.py`.

The embedding models the database state explicitly: each table is a list of
rows kept in insertion order, `nextId` is the supply of fresh server-generated
identifiers (standing in for `gen_random_uuid()`), and `now` is the clock
value the database would use for `DEFAULT NOW()` columns at the moment of the
call.  Each service method is a pure function of this state; a method that
raises `ValueError` in Python is modelled as returning `Except.error` paired
with the unchanged state (the exception is raised before the `INSERT`
executes, so nothing is written).

The cryptographic digests (`hashlib.sha256(...).hexdigest()` in the clean
variant, `hashlib.md5(...).hexdigest()` in the vulnerable one) are library
code outside the repository; they enter the embedding as abstract function
parameters `sha256hex` and `md5hex` from passwords to digest strings.
-/

namespace BlogApi

/-- A row of the `users` table of the clean variant:
`id UUID, username VARCHAR(100) UNIQUE, password_hash VARCHAR(255),
created_at TIMESTAMP` (`app/core/database.py`). -/
structure UserRow where
  id : String
  username : String
  password_hash : String
  created_at : Nat
deriving Repr, DecidableEq

/-- The projection of a user row returned by
`RETURNING id, username, created_at` — the `password_hash` column is not
part of it. -/
structure UserPublic where
  id : String
  username : String
  created_at : Nat
deriving Repr, DecidableEq

/-- A row of the `posts` table:
`id UUID, title VARCHAR(200), content TEXT, author_id UUID,
created_at TIMESTAMP, updated_at TIMESTAMP` (`app/core/database.py`). -/
structure PostRow where
  id : String
  title : String
  content : String
  author_id : String
  created_at : Nat
  updated_at : Option Nat
deriving Repr, DecidableEq

/-- A row of the `comments` table:
`id UUID, post_id UUID, content TEXT, author_id UUID, created_at TIMESTAMP`
(`app/core/database.py`). -/
structure CommentRow where
  id : String
  post_id : String
  content : String
  author_id : String
  created_at : Nat
deriving Repr, DecidableEq

/-- The database state of the clean variant.  Tables are lists in insertion
order; `nextId` generates fresh identifiers (modelling `gen_random_uuid()`);
`now` is the timestamp the database assigns to `DEFAULT NOW()` columns for
the current call. -/
structure DB where
  users : List UserRow
  posts : List PostRow
  comments : List CommentRow
  nextId : Nat
  now : Nat
deriving Repr, DecidableEq

/-- The fresh server-generated identifier the database hands to the next
inserted row. -/
def DB.freshId (db : DB) : String :=
  toString db.nextId

/-- Python's `str.strip()`: remove leading and trailing whitespace characters.
(Python strips the full Unicode whitespace class; the embedding uses Lean's
ASCII `Char.isWhitespace`, which agrees on ASCII input.) -/
def pyStrip (s : String) : String :=
  String.mk (List.reverse (List.dropWhile Char.isWhitespace
    (List.reverse (List.dropWhile Char.isWhitespace s.data))))

namespace PostService

/-- `PostService.create_post` (`post_service.py`): validates, then inserts
`(title.strip(), content.strip(), author_id)` and returns the new row.
The Python checks are, in order:
`if not title or len(title.strip()) == 0`, `if len(title) > 200`,
`if not content or len(content.strip()) == 0`; each raises `ValueError`
before the `INSERT`, which is modelled by returning the error together with
the unchanged state. -/
def create_post (db : DB) (title content author_id : String) :
    Except String PostRow × DB :=
  if title = "" ∨ (pyStrip title).length = 0 then
    (Except.error "Title cannot be empty", db)
  else if title.length > 200 then
    (Except.error "Title cannot exceed 200 characters", db)
  else if content = "" ∨ (pyStrip content).length = 0 then
    (Except.error "Content cannot be empty", db)
  else
    let p : PostRow :=
      { id := db.freshId, title := pyStrip title, content := pyStrip content,
        author_id := author_id, created_at := db.now, updated_at := none }
    (Except.ok p, { db with posts := db.posts ++ [p], nextId := db.nextId + 1 })

/-- `PostService.get_post_by_id` (`post_service.py`):
`SELECT ... FROM posts WHERE id = %s`, then `dict(post) if post else None`. -/
def get_post_by_id (db : DB) (post_id : String) : Option PostRow :=
  db.posts.find? (fun p => p.id == post_id)

end PostService

namespace CommentService

/-- `CommentService.create_comment` (`comment_service.py`): validates content
(`if not content or len(content.strip()) == 0`), then checks
`SELECT id FROM posts WHERE id = %s` and raises when no row comes back, and
only then inserts `(post_id, content.strip(), author_id)` returning the row
with its generated `created_at`. -/
def create_comment (db : DB) (post_id content author_id : String) :
    Except String CommentRow × DB :=
  if content = "" ∨ (pyStrip content).length = 0 then
    (Except.error "Content cannot be empty", db)
  else if (db.posts.find? (fun p => p.id == post_id)).isNone then
    (Except.error ("Post with ID " ++ post_id ++ " not found"), db)
  else
    let c : CommentRow :=
      { id := db.freshId, post_id := post_id, content := pyStrip content,
        author_id := author_id, created_at := db.now }
    (Except.ok c,
     { db with comments := db.comments ++ [c], nextId := db.nextId + 1 })

/-- `CommentService.list_comments_by_post` (`comment_service.py`):
`SELECT ... FROM comments WHERE post_id = %s ORDER BY created_at ASC`.
The `WHERE` clause is the filter; `ORDER BY created_at ASC` is modelled by a
sort on `created_at`.  The SQL statement fixes no secondary sort key, so the
relative order of rows with equal `created_at` is chosen by the database
engine; the merge sort used here is one such choice. -/
def list_comments_by_post (db : DB) (post_id : String) : List CommentRow :=
  (db.comments.filter (fun c => c.post_id == post_id)).mergeSort
    (fun a b => decide (a.created_at ≤ b.created_at))

end CommentService

namespace UserService

/-- `UserService.create_user` (`user_service.py`): checks
`SELECT id FROM users WHERE username = %s` (SQL `=` on `VARCHAR` is
case-sensitive) and raises when a row exists; otherwise inserts
`(username, sha256hex password)` and returns `id, username, created_at`.
The source wraps the username of the error detail in single quotes, which
are omitted here. -/
def create_user (sha256hex : String → String) (db : DB)
    (username password : String) : Except String UserPublic × DB :=
  match db.users.find? (fun u => u.username == username) with
  | some _ => (Except.error ("Username " ++ username ++ " already exists"), db)
  | none =>
    let row : UserRow :=
      { id := db.freshId, username := username,
        password_hash := sha256hex password, created_at := db.now }
    (Except.ok { id := row.id, username := row.username,
                 created_at := row.created_at },
     { db with users := db.users ++ [row], nextId := db.nextId + 1 })

/-- `UserService.authenticate_user` (`user_service.py`): hashes the supplied
password and runs
`SELECT id, username, created_at FROM users WHERE username = %s AND
password_hash = %s`, returning the row or `None`.  It is a total function:
no branch raises. -/
def authenticate_user (sha256hex : String → String) (db : DB)
    (username password : String) : Option UserPublic :=
  match db.users.find?
      (fun u => u.username == username && u.password_hash == sha256hex password) with
  | some u => some { id := u.id, username := u.username, created_at := u.created_at }
  | none => none

end UserService

namespace Api

/-- The `GET /api/posts/{post_id}` handler (`app/api/posts.py`): calls
`PostService.get_post_by_id` and answers 404 `"Post not found"` when it
returns `None`, otherwise 200 with the row mapped into the response model. -/
def get_post (db : DB) (post_id : String) : Nat × Option PostRow :=
  match PostService.get_post_by_id db post_id with
  | none => (404, none)
  | some p => (200, some p)

end Api

namespace Vuln

/-- A row of the `users` table of the vulnerable monolith (`app/main.py`):
`id INTEGER AUTOINCREMENT, username TEXT, email TEXT, password TEXT`. -/
structure VUserRow where
  id : Nat
  username : String
  email : String
  password : String
deriving Repr, DecidableEq

/-- `hash_password` of the vulnerable variant (`app/main.py`): the MD5 hex
digest of the password, `hashlib.md5(password.encode()).hexdigest()`.  The
digest computation lives in Python's `hashlib`, outside the repository, and
is the abstract parameter `md5hex`. -/
def hash_password (md5hex : String → String) (password : String) : String :=
  md5hex password

/-- The `/register` endpoint of the vulnerable monolith (`app/main.py`):
inserts `(username, email, hash_password(password))` into `users`.  The
string-interpolated SQL of the source is modelled as a direct insert of the
three values; the autoincrement id is one past the current row count. -/
def register (md5hex : String → String) (users : List VUserRow)
    (username email password : String) : List VUserRow :=
  users ++ [{ id := users.length + 1, username := username, email := email,
              password := hash_password md5hex password }]

end Vuln

/-- A concrete stand-in digest function for evaluating the services on
concrete inputs. -/
def hashA : String → String := fun s => String.append "#" s

/-- The empty database. -/
def db0 : DB := { users := [], posts := [], comments := [], nextId := 0, now := 0 }

/-- A database holding one post whose identifier is "7". -/
def dbP : DB :=
  { users := [],
    posts := [{ id := "7", title := "t", content := "c", author_id := "a",
                created_at := 0, updated_at := none }],
    comments := [], nextId := 8, now := 1 }

/-- The user row that registering "bob" with password "pw" in `db0` inserts. -/
def row0 : UserRow :=
  { id := "0", username := "bob", password_hash := hashA "pw", created_at := 0 }

/-- The database state after registering "bob" in `db0`. -/
def db1 : DB :=
  { users := [row0], posts := [], comments := [], nextId := 1, now := 0 }

/-- A title of raw length 201 whose stripped form has length 200. -/
def padTitle : String := String.mk (List.cons ' ' (List.replicate 200 'a'))

/-- A whitespace-only title of raw length 201. -/
def blankTitle : String := String.mk (List.replicate 201 ' ')

theorem length_eq_zero_iff (s : String) : s.length = 0 ↔ s = "" := by
  cases s with
  | mk l =>
    constructor
    · intro h
      simp [String.length] at h
      simp [h]
    · intro h
      rw [h]; rfl

theorem empty_check_iff (s : String) :
    (s = "" ∨ (pyStrip s).length = 0) ↔ pyStrip s = "" := by
  rw [length_eq_zero_iff]
  constructor
  · rintro (h | h)
    · rw [h]; rfl
    · exact h
  · intro h
    exact Or.inr h

theorem isOk_error (e : ε) : (Except.error e : Except ε α).isOk = false := rfl

theorem isOk_ok (a : α) : (Except.ok a : Except ε α).isOk = true := rfl

/-- C1: `create_post` rejects exactly the invalid inputs and trims on
success: it fails precisely when the stripped title is empty (with message
"Title cannot be empty"), when the raw title exceeds 200 characters (with
message "Title cannot exceed 200 characters"), or when the stripped content
is empty (with message "Content cannot be empty"); a 200-character title
succeeds; and on success the stored title and content are the inputs
stripped of leading/trailing whitespace. -/
theorem create_post_validation (db : DB) (title content author_id : String) :
    ((PostService.create_post db title content author_id).1.isOk = true ↔
      ¬(pyStrip title = "" ∨ 200 < title.length ∨ pyStrip content = ""))
    ∧ (pyStrip title = "" →
        (PostService.create_post db title content author_id).1 =
          Except.error "Title cannot be empty")
    ∧ (pyStrip title ≠ "" → 200 < title.length →
        (PostService.create_post db title content author_id).1 =
          Except.error "Title cannot exceed 200 characters")
    ∧ (pyStrip title ≠ "" → title.length ≤ 200 → pyStrip content = "" →
        (PostService.create_post db title content author_id).1 =
          Except.error "Content cannot be empty")
    ∧ (title.length = 200 → pyStrip title ≠ "" → pyStrip content ≠ "" →
        (PostService.create_post db title content author_id).1.isOk = true)
    ∧ (∀ p db2,
        PostService.create_post db title content author_id = (Except.ok p, db2) →
          p.title = pyStrip title ∧ p.content = pyStrip content ∧
            db2.posts = db.posts ++ [p]) := by
  have hct := empty_check_iff title
  have hcc := empty_check_iff content
  unfold PostService.create_post
  split_ifs with h1 h2 h3
  · rw [hct] at h1
    refine ⟨by simp [isOk_error, h1], fun _ => rfl, fun hne => absurd h1 hne,
      fun hne => absurd h1 hne, fun _ hne => absurd h1 hne, ?_⟩
    intro p db2 hp
    simp at hp
  · rw [hct] at h1
    refine ⟨by simp [isOk_error, h1, h2], fun h => absurd h h1, fun _ _ => rfl,
      fun _ hle _ => absurd h2 (by omega), fun h200 _ _ => absurd h2 (by omega), ?_⟩
    intro p db2 hp
    simp at hp
  · rw [hct] at h1
    rw [hcc] at h3
    refine ⟨by simp [isOk_error, h1, h2, h3], fun h => absurd h h1,
      fun _ hlt => absurd hlt h2, fun _ _ _ => rfl,
      fun _ _ hcne => absurd h3 hcne, ?_⟩
    intro p db2 hp
    simp at hp
  · rw [hct] at h1
    rw [hcc] at h3
    refine ⟨by simp [isOk_ok, h1, h2, h3], fun h => absurd h h1,
      fun _ hlt => absurd hlt h2, fun _ _ hc => absurd hc h3,
      fun _ _ _ => by simp [isOk_ok], ?_⟩
    intro p db2 hp
    simp [Prod.ext_iff] at hp
    obtain ⟨hp1, hp2⟩ := hp
    subst hp1
    subst hp2
    exact ⟨rfl, rfl, rfl⟩

theorem find_post_none_iff (db : DB) (post_id : String) :
    db.posts.find? (fun p => p.id == post_id) = none ↔
      ¬ ∃ p ∈ db.posts, p.id = post_id := by
  rw [List.find?_eq_none]
  simp

/-- C2: `create_comment` checks content before existence and inserts nothing
on failure: empty-after-stripping content fails with the validation error
regardless of whether the post exists; otherwise a missing post fails with
the not-found error; only when both checks pass is a comment appended, and
the returned record carries the generated creation timestamp.  Either
failure leaves the state unchanged. -/
theorem create_comment_spec (db : DB) (post_id content author_id : String) :
    (pyStrip content = "" →
      CommentService.create_comment db post_id content author_id =
        (Except.error "Content cannot be empty", db))
    ∧ (pyStrip content ≠ "" → (¬ ∃ p ∈ db.posts, p.id = post_id) →
      CommentService.create_comment db post_id content author_id =
        (Except.error ("Post with ID " ++ post_id ++ " not found"), db))
    ∧ (pyStrip content ≠ "" → (∃ p ∈ db.posts, p.id = post_id) →
      ∃ c : CommentRow,
        CommentService.create_comment db post_id content author_id =
          (Except.ok c,
           { db with comments := db.comments ++ [c], nextId := db.nextId + 1 })
        ∧ c.post_id = post_id ∧ c.content = pyStrip content ∧
          c.created_at = db.now)
    ∧ (∀ e db2,
        CommentService.create_comment db post_id content author_id =
          (Except.error e, db2) → db2 = db) := by
  have hcc := empty_check_iff content
  unfold CommentService.create_comment
  split_ifs with h1 h2
  · rw [hcc] at h1
    refine ⟨fun _ => rfl, fun hne _ => absurd h1 hne, fun hne _ => absurd h1 hne, ?_⟩
    intro e db2 hp
    simp [Prod.ext_iff] at hp
    exact hp.2.symm
  · rw [hcc] at h1
    rw [Option.isNone_iff_eq_none, find_post_none_iff] at h2
    refine ⟨fun h => absurd h h1, fun _ _ => rfl, fun _ hex => absurd hex h2, ?_⟩
    intro e db2 hp
    simp [Prod.ext_iff] at hp
    exact hp.2.symm
  · rw [hcc] at h1
    rw [Option.isNone_iff_eq_none, find_post_none_iff] at h2
    push_neg at h2
    refine ⟨fun h => absurd h h1, fun _ hne => absurd h2 hne, ?_, ?_⟩
    · intro _ _
      exact ⟨{ id := db.freshId, post_id := post_id, content := pyStrip content,
               author_id := author_id, created_at := db.now },
             rfl, rfl, rfl, rfl⟩
    · intro e db2 hp
      simp at hp

theorem find_user_none_iff (db : DB) (username : String) :
    db.users.find? (fun u => u.username == username) = none ↔
      ¬ ∃ u ∈ db.users, u.username = username := by
  rw [List.find?_eq_none]
  simp

/-- C3: `create_user` fails with the duplicate-username error exactly when a
user with a case-sensitive exact match of the username already exists;
otherwise it inserts a row holding the password hash and returns the
generated identifier, the username, and the creation timestamp.  Registering
the same username twice yields one success and one failure whose detail says
"already exists", and a failure leaves the state unchanged. -/
theorem create_user_spec (sha256hex : String → String) (db : DB)
    (username password : String) :
    ((UserService.create_user sha256hex db username password).1.isOk = false ↔
      ∃ u ∈ db.users, u.username = username)
    ∧ (∀ e db2,
        UserService.create_user sha256hex db username password =
          (Except.error e, db2) →
          db2 = db ∧ e = "Username " ++ username ++ " already exists")
    ∧ ((¬ ∃ u ∈ db.users, u.username = username) →
        UserService.create_user sha256hex db username password =
          (Except.ok { id := db.freshId, username := username,
                       created_at := db.now },
           { db with
               users := db.users ++
                 [{ id := db.freshId, username := username,
                    password_hash := sha256hex password,
                    created_at := db.now }],
               nextId := db.nextId + 1 }))
    ∧ ((¬ ∃ u ∈ db.users, u.username = username) →
        ∀ password2,
          (UserService.create_user sha256hex
              (UserService.create_user sha256hex db username password).2
              username password2).1 =
            Except.error ("Username " ++ username ++ " already exists")) := by
  rcases hfind : db.users.find? (fun u => u.username == username) with _ | u
  · have hnotex : ¬ ∃ u ∈ db.users, u.username = username :=
      (find_user_none_iff db username).mp hfind
    refine ⟨?_, ?_, fun _ => ?_, fun _ password2 => ?_⟩
    · simp only [UserService.create_user, hfind]
      simp [isOk_ok, hnotex]
    · intro e db2 hp
      simp only [UserService.create_user, hfind] at hp
      simp at hp
    · simp only [UserService.create_user, hfind]
    · simp only [UserService.create_user, hfind]
      have hfind2 :
          (db.users ++
            [{ id := db.freshId, username := username,
               password_hash := sha256hex password,
               created_at := db.now : UserRow }]).find?
            (fun u => u.username == username) =
          some { id := db.freshId, username := username,
                 password_hash := sha256hex password, created_at := db.now } := by
        rw [List.find?_append, hfind]
        simp
      simp only [hfind2]
  · have hex : ∃ v ∈ db.users, v.username = username := by
      refine ⟨u, List.mem_of_find?_eq_some hfind, ?_⟩
      have := List.find?_some hfind
      simpa using this
    refine ⟨?_, ?_, fun hne => absurd hex hne, fun hne => absurd hex hne⟩
    · simp only [UserService.create_user, hfind]
      simp [isOk_error, hex]
    · intro e db2 hp
      simp only [UserService.create_user, hfind] at hp
      simp [Prod.ext_iff] at hp
      exact ⟨hp.2.symm, hp.1.symm⟩

/-- C4: `authenticate_user` never raises for bad credentials: it is a total
function that returns a stored row exactly when some user matches both the
username and the hash of the supplied password, and `none` otherwise; after
a fresh registration, logging in with the same credentials returns the same
identifier the registration produced, and a password with a different hash
yields `none`. -/
theorem authenticate_user_spec (sha256hex : String → String) (db : DB)
    (username password : String) :
    ((UserService.authenticate_user sha256hex db username password).isSome = true ↔
      ∃ u ∈ db.users, u.username = username ∧ u.password_hash = sha256hex password)
    ∧ (∀ r,
        UserService.authenticate_user sha256hex db username password = some r →
          ∃ u ∈ db.users, u.username = username ∧
            u.password_hash = sha256hex password ∧
            r = { id := u.id, username := u.username, created_at := u.created_at })
    ∧ ((¬ ∃ u ∈ db.users, u.username = username) →
        ∀ res db1,
          UserService.create_user sha256hex db username password =
            (Except.ok res, db1) →
            UserService.authenticate_user sha256hex db1 username password = some res
            ∧ ∀ password2, sha256hex password2 ≠ sha256hex password →
                UserService.authenticate_user sha256hex db1 username password2 = none) := by
  refine ⟨?_, ?_, ?_⟩
  · rcases hfind : db.users.find?
        (fun u => u.username == username && u.password_hash == sha256hex password)
      with _ | u
    · simp only [UserService.authenticate_user, hfind]
      rw [List.find?_eq_none] at hfind
      simp only [Option.isSome_none, Bool.false_eq_true, false_iff]
      rintro ⟨u, hu, h1, h2⟩
      have := hfind u hu
      simp [h1, h2] at this
    · simp only [UserService.authenticate_user, hfind]
      simp only [Option.isSome_some, true_iff]
      have hp := List.find?_some hfind
      simp [Bool.and_eq_true] at hp
      exact ⟨u, List.mem_of_find?_eq_some hfind, hp.1, hp.2⟩
  · intro r hr
    rcases hfind : db.users.find?
        (fun u => u.username == username && u.password_hash == sha256hex password)
      with _ | u
    · simp only [UserService.authenticate_user, hfind] at hr
      cases hr
    · simp only [UserService.authenticate_user, hfind] at hr
      have hp := List.find?_some hfind
      simp [Bool.and_eq_true] at hp
      refine ⟨u, List.mem_of_find?_eq_some hfind, hp.1, hp.2, ?_⟩
      simp at hr
      exact hr.symm
  · intro hnotex res db1 hp
    have hfu : db.users.find? (fun u => u.username == username) = none :=
      (find_user_none_iff db username).mpr hnotex
    simp only [UserService.create_user, hfu] at hp
    simp [Prod.ext_iff] at hp
    obtain ⟨hres, hdb1⟩ := hp
    subst hres
    subst hdb1
    constructor
    · have hold : db.users.find?
          (fun u => u.username == username &&
            u.password_hash == sha256hex password) = none := by
        rw [List.find?_eq_none]
        intro x hx
        have hxne : x.username ≠ username := fun hh => hnotex ⟨x, hx, hh⟩
        simp [hxne]
      simp only [UserService.authenticate_user, List.find?_append, hold]
      simp
    · intro password2 hne
      have hall : (db.users ++
          [{ id := db.freshId, username := username,
             password_hash := sha256hex password,
             created_at := db.now : UserRow }]).find?
          (fun u => u.username == username &&
            u.password_hash == sha256hex password2) = none := by
        rw [List.find?_eq_none]
        intro x hx
        rcases List.mem_append.mp hx with hxl | hxr
        · have hxne : x.username ≠ username := fun hh => hnotex ⟨x, hxl, hh⟩
          simp [hxne]
        · simp at hxr
          subst hxr
          simp
          exact fun hh => hne hh.symm
      simp only [UserService.authenticate_user]
      simp only [hall]

/-- C5: `list_comments_by_post` returns exactly the comments whose post
reference equals the given identifier, in ascending order of creation time:
the result is a permutation of the rows matching the `WHERE` clause (hence
has exactly their number), is sorted ascending by `created_at`, every
returned row references the given post, and when no comment references the
post (in particular for a nonexistent post) the result is empty. -/
theorem list_comments_by_post_spec (db : DB) (post_id : String) :
    List.Perm (CommentService.list_comments_by_post db post_id)
      (db.comments.filter (fun c => c.post_id == post_id))
    ∧ List.Pairwise (fun a b : CommentRow => a.created_at ≤ b.created_at)
        (CommentService.list_comments_by_post db post_id)
    ∧ (CommentService.list_comments_by_post db post_id).length =
        (db.comments.filter (fun c => c.post_id == post_id)).length
    ∧ (∀ c ∈ CommentService.list_comments_by_post db post_id, c.post_id = post_id)
    ∧ ((∀ c ∈ db.comments, c.post_id ≠ post_id) →
        CommentService.list_comments_by_post db post_id = []) := by
  have hperm :
      List.Perm (CommentService.list_comments_by_post db post_id)
        (db.comments.filter (fun c => c.post_id == post_id)) :=
    List.mergeSort_perm _ _
  have hsorted :
      List.Pairwise (fun a b : CommentRow => a.created_at ≤ b.created_at)
        (CommentService.list_comments_by_post db post_id) := by
    have h := @List.sorted_mergeSort CommentRow
      (fun a b : CommentRow => decide (a.created_at ≤ b.created_at))
      (fun a b c hab hbc => by
        simp only [decide_eq_true_eq] at *
        omega)
      (fun a b => by
        simp only [Bool.or_eq_true, decide_eq_true_eq]
        omega)
      (db.comments.filter (fun c => c.post_id == post_id))
    exact h.imp (fun hab => by simpa using hab)
  refine ⟨hperm, hsorted, hperm.length_eq, ?_, ?_⟩
  · intro c hc
    have := (hperm.mem_iff).mp hc
    have := List.mem_filter.mp this
    simpa using this.2
  · intro hnone
    have hfil : db.comments.filter (fun c => c.post_id == post_id) = [] := by
      rw [List.filter_eq_nil_iff]
      intro c hc
      simpa using hnone c hc
    have := hperm
    rw [hfil] at this
    exact this.eq_nil

/-- C7: `get_post_by_id` returns the stored post row when one with the given
identifier exists and `None` otherwise, without raising; at the HTTP
boundary, the `GET /api/posts/{post_id}` handler answers 404 for a
non-existent identifier and 200 with the row when it exists. -/
theorem get_post_by_id_spec (db : DB) (post_id : String) :
    ((PostService.get_post_by_id db post_id).isSome = true ↔
      ∃ p ∈ db.posts, p.id = post_id)
    ∧ (∀ p, PostService.get_post_by_id db post_id = some p →
        p ∈ db.posts ∧ p.id = post_id)
    ∧ ((¬ ∃ p ∈ db.posts, p.id = post_id) →
        Api.get_post db post_id = (404, none))
    ∧ (∀ p, PostService.get_post_by_id db post_id = some p →
        Api.get_post db post_id = (200, some p)) := by
  refine ⟨?_, ?_, ?_, ?_⟩
  · rw [PostService.get_post_by_id, List.find?_isSome]
    simp
  · intro p hp
    refine ⟨List.mem_of_find?_eq_some hp, ?_⟩
    have := List.find?_some hp
    simpa using this
  · intro hne
    have hnone : db.posts.find? (fun p => p.id == post_id) = none :=
      (find_post_none_iff db post_id).mpr hne
    simp only [Api.get_post, PostService.get_post_by_id, hnone]
  · intro p hp
    simp only [Api.get_post, hp]

/-- C8: passwords are stored only as one-way hashes: the clean variant's
`create_user` stores exactly the SHA-256 hex digest of the supplied password
and returns a record holding only the identifier, username and creation
timestamp; the vulnerable variant's `/register` stores the MD5 hex digest;
and whenever the digest differs from the plain-text password, no freshly
stored row holds the plain-text password in its password field. -/
theorem password_stored_only_hashed (sha256hex md5hex : String → String)
    (db : DB) (users : List Vuln.VUserRow) (username email password : String) :
    (∀ res db2,
      UserService.create_user sha256hex db username password =
        (Except.ok res, db2) →
        db2.users = db.users ++
          [{ id := res.id, username := res.username,
             password_hash := sha256hex password,
             created_at := res.created_at }]
        ∧ res = { id := db.freshId, username := username, created_at := db.now })
    ∧ (∀ row ∈ Vuln.register md5hex users username email password,
        row ∈ users ∨ row.password = md5hex password)
    ∧ (sha256hex password ≠ password →
        ∀ res db2,
          UserService.create_user sha256hex db username password =
            (Except.ok res, db2) →
            ∀ u ∈ db2.users, u ∉ db.users → u.password_hash ≠ password) := by
  have hmain : ∀ res db2,
      UserService.create_user sha256hex db username password =
        (Except.ok res, db2) →
        res = { id := db.freshId, username := username, created_at := db.now }
        ∧ db2 = { db with
            users := db.users ++
              [{ id := db.freshId, username := username,
                 password_hash := sha256hex password, created_at := db.now }],
            nextId := db.nextId + 1 } := by
    intro res db2 hp
    rcases hfind : db.users.find? (fun u => u.username == username) with _ | u
    · simp only [UserService.create_user, hfind] at hp
      simp [Prod.ext_iff] at hp
      exact ⟨hp.1.symm, hp.2.symm⟩
    · simp only [UserService.create_user, hfind] at hp
      simp at hp
  refine ⟨?_, ?_, ?_⟩
  · intro res db2 hp
    obtain ⟨hres, hdb2⟩ := hmain res db2 hp
    subst hres
    subst hdb2
    exact ⟨rfl, rfl⟩
  · intro row hrow
    rcases List.mem_append.mp hrow with h | h
    · exact Or.inl h
    · simp at h
      subst h
      exact Or.inr rfl
  · intro hne res db2 hp u hu hunotin
    obtain ⟨hres, hdb2⟩ := hmain res db2 hp
    subst hdb2
    rcases List.mem_append.mp hu with h | h
    · exact absurd h hunotin
    · simp at h
      subst h
      exact hne

/-- C9: the clean variant's user service performs no emptiness validation on
credentials: with an empty username or an empty password, `create_user`
still succeeds whenever no duplicate username exists, and every failure it
produces is caused by a duplicate username. -/
theorem create_user_no_empty_validation (sha256hex : String → String)
    (db : DB) (username password : String) :
    ((¬ ∃ u ∈ db.users, u.username = "") →
      (UserService.create_user sha256hex db "" password).1.isOk = true)
    ∧ ((¬ ∃ u ∈ db.users, u.username = username) →
      (UserService.create_user sha256hex db username "").1.isOk = true)
    ∧ (∀ e db2,
      UserService.create_user sha256hex db username password =
        (Except.error e, db2) →
        ∃ u ∈ db.users, u.username = username) := by
  refine ⟨?_, ?_, ?_⟩
  · intro hne
    have hfind : db.users.find? (fun u => u.username == "") = none :=
      (find_user_none_iff db "").mpr hne
    simp only [UserService.create_user, hfind]
    rfl
  · intro hne
    have hfind : db.users.find? (fun u => u.username == username) = none :=
      (find_user_none_iff db username).mpr hne
    simp only [UserService.create_user, hfind]
    rfl
  · intro e db2 hp
    rcases hfind : db.users.find? (fun u => u.username == username) with _ | u
    · simp only [UserService.create_user, hfind] at hp
      simp at hp
    · refine ⟨u, List.mem_of_find?_eq_some hfind, ?_⟩
      have := List.find?_some hfind
      simpa using this

/-- C10: in `create_post` the 200-character limit is evaluated on the raw,
untrimmed title and the emptiness check runs before the length check: a
title whose stripped form is nonempty and within the limit but whose raw
length exceeds 200 fails with the length error, and a whitespace-only title
fails with the emptiness error even when its raw length exceeds 200. -/
theorem create_post_raw_length_precedence (db : DB) (title content author_id : String) :
    (pyStrip title ≠ "" → (pyStrip title).length ≤ 200 → 200 < title.length →
      (PostService.create_post db title content author_id).1 =
        Except.error "Title cannot exceed 200 characters")
    ∧ (pyStrip title = "" → 200 < title.length →
      (PostService.create_post db title content author_id).1 =
        Except.error "Title cannot be empty") := by
  have hct := empty_check_iff title
  unfold PostService.create_post
  split_ifs with h1 h2 h3
  · rw [hct] at h1
    exact ⟨fun hne => absurd h1 hne, fun _ _ => rfl⟩
  · rw [hct] at h1
    exact ⟨fun _ _ _ => rfl, fun h => absurd h h1⟩
  · rw [hct] at h1
    exact ⟨fun _ _ hlt => absurd hlt h2, fun h => absurd h h1⟩
  · rw [hct] at h1
    exact ⟨fun _ _ hlt => absurd hlt h2, fun h => absurd h h1⟩

/-- Evaluation of C1 on concrete inputs: a whitespace title is rejected with
the emptiness message and an ordinary title is accepted. -/
theorem create_post_validation_witness :
    (PostService.create_post db0 " " "c" "a").1 =
      Except.error "Title cannot be empty"
    ∧ (PostService.create_post db0 "t" "c" "a").1.isOk = true :=
  ⟨(create_post_validation db0 " " "c" "a").2.1 (by decide),
   ((create_post_validation db0 "t" "c" "a").1).mpr (by decide)⟩

/-- Evaluation of C2 on concrete inputs: blank content is rejected before the
existence check, and nonempty content on a missing post gives the not-found
error, both leaving the state unchanged. -/
theorem create_comment_spec_witness :
    CommentService.create_comment db0 "7" " " "a" =
      (Except.error "Content cannot be empty", db0)
    ∧ CommentService.create_comment db0 "7" "hi" "a" =
      (Except.error ("Post with ID " ++ "7" ++ " not found"), db0) :=
  ⟨(create_comment_spec db0 "7" " " "a").1 (by decide),
   (create_comment_spec db0 "7" "hi" "a").2.1 (by decide) (by decide)⟩

/-- Evaluation of C3 on concrete inputs: registering "bob" twice makes the
second registration fail with the already-exists detail. -/
theorem create_user_spec_witness :
    (UserService.create_user hashA
        (UserService.create_user hashA db0 "bob" "pw").2 "bob" "pw2").1 =
      Except.error ("Username " ++ "bob" ++ " already exists") :=
  (create_user_spec hashA db0 "bob" "pw").2.2.2 (by decide) "pw2"

/-- Evaluation of C4 on concrete inputs: after registering "bob", the right
password authenticates to the registered identifier and a wrong password
yields the miss result. -/
theorem authenticate_user_spec_witness :
    UserService.authenticate_user hashA db1 "bob" "pw" =
      some { id := "0", username := "bob", created_at := 0 }
    ∧ UserService.authenticate_user hashA db1 "bob" "o" = none :=
  have h := (authenticate_user_spec hashA db0 "bob" "pw").2.2 (by decide)
    { id := "0", username := "bob", created_at := 0 } db1 (by rfl)
  ⟨h.1, h.2 "o" (by decide)⟩

/-- Evaluation of C5 on a concrete input: a post with no comments lists the
empty list. -/
theorem list_comments_by_post_spec_witness :
    CommentService.list_comments_by_post db0 "7" = [] :=
  (list_comments_by_post_spec db0 "7").2.2.2.2 (by decide)

/-- Evaluation of C7 on concrete inputs: a missing identifier answers 404 and
an existing one answers 200 with the stored row. -/
theorem get_post_by_id_spec_witness :
    Api.get_post dbP "nope" = (404, none)
    ∧ Api.get_post dbP "7" =
        (200, some { id := "7", title := "t", content := "c", author_id := "a",
                     created_at := 0, updated_at := none }) :=
  ⟨(get_post_by_id_spec dbP "nope").2.2.1 (by decide),
   (get_post_by_id_spec dbP "7").2.2.2
     { id := "7", title := "t", content := "c", author_id := "a",
       created_at := 0, updated_at := none } (by decide)⟩

/-- Evaluation of C8 on concrete inputs: the freshly stored row's password
field is the digest, not the plain-text password. -/
theorem password_stored_only_hashed_witness :
    row0.password_hash ≠ "pw" :=
  (password_stored_only_hashed hashA hashA db0 [] "bob" "e" "pw").2.2
    (by decide) { id := "0", username := "bob", created_at := 0 } db1 (by rfl)
    row0 (by decide) (by decide)

/-- Evaluation of C9 on concrete inputs: an empty username and an empty
password both register without a validation error. -/
theorem create_user_no_empty_validation_witness :
    (UserService.create_user hashA db0 "" "pw").1.isOk = true
    ∧ (UserService.create_user hashA db0 "bob" "").1.isOk = true :=
  ⟨(create_user_no_empty_validation hashA db0 "bob" "pw").1 (by decide),
   (create_user_no_empty_validation hashA db0 "bob" "pw").2.1 (by decide)⟩

set_option maxRecDepth 8000 in
/-- Evaluation of C10 on concrete inputs: a 201-character title with a
200-character stripped form fails on the raw length, and a whitespace-only
201-character title fails with the emptiness message. -/
theorem create_post_raw_length_precedence_witness :
    (PostService.create_post db0 padTitle "c" "a").1 =
      Except.error "Title cannot exceed 200 characters"
    ∧ (PostService.create_post db0 blankTitle "c" "a").1 =
      Except.error "Title cannot be empty" :=
  ⟨(create_post_raw_length_precedence db0 padTitle "c" "a").1
      (by decide) (by decide) (by decide),
   (create_post_raw_length_precedence db0 blankTitle "c" "a").2
      (by decide) (by decide)⟩

end BlogApi
